import Mathlib

/-!
Shallow embedding of the radioContainer control-plane core
(`src/rcc1`): common types (`rcc/common/types.hpp`), the Silvus radio
adapter (`adapter/silvus_adapter.cpp`, the `IRadioAdapter`
implementation), the radio registry (`radio/radio_manager.cpp`, the
descriptor-map draft) and the command orchestrator
(`command/orchestrator.cpp`).  C++ `double` values (watts, MHz) are
modelled as `ℚ`: the source performs no floating-point arithmetic on
them, only stores and copies them.  Stateful methods become pure
functions from the receiver to a result paired with the updated
receiver; `std::optional` becomes `Option`.
-/

namespace rcc

/-- `rcc::common::CommandResultCode` (types.hpp lines 9-15). -/
inductive CommandResultCode where
  | Ok
  | InvalidRange
  | Busy
  | Unavailable
  | InternalError
deriving DecidableEq, Repr

/-- `rcc::common::CommandResult` (types.hpp lines 28-32). -/
structure CommandResult where
  code : CommandResultCode
  message : String
  vendor_payload : Option String
deriving DecidableEq, Repr

/-- `rcc::common::RadioStatus` (types.hpp lines 34-40). -/
inductive RadioStatus where
  | Offline
  | Discovering
  | Ready
  | Busy
  | Recovering
deriving DecidableEq, Repr

/-- `rcc::common::RadioState` (types.hpp lines 53-57); the member
initializers give `{Offline, nullopt, nullopt}` on value-initialization. -/
structure RadioState where
  status : RadioStatus
  channel_index : Option Int
  power_watts : Option ℚ
deriving DecidableEq, Repr

/-- `rcc::adapter::CapabilityInfo` (radio_adapter.hpp). -/
structure CapabilityInfo where
  supported_frequencies_mhz : List ℚ
  power_range_watts : ℚ × ℚ
deriving DecidableEq, Repr

/-- `rcc::adapter::SilvusAdapter` (silvus_adapter.hpp): id, endpoint,
fixed capabilities and the adapter's own last-known state snapshot.
The mutex only serializes access and has no functional content. -/
structure SilvusAdapter where
  id : String
  endpoint : String
  capabilities : CapabilityInfo
  state : RadioState
deriving DecidableEq, Repr

/-- `SilvusAdapter::SilvusAdapter(id, endpoint)` (silvus_adapter.cpp
lines 7-13): frequencies {2412.0, 2437.0, 2462.0}, power range
(0.1, 5.0), status Offline. -/
def SilvusAdapter.make (id endpoint : String) : SilvusAdapter :=
  { id := id
    endpoint := endpoint
    capabilities :=
      { supported_frequencies_mhz := [2412, 2437, 2462]
        power_range_watts := (1/10, 5) }
    state := { status := .Offline, channel_index := none, power_watts := none } }

/-- `SilvusAdapter::connect()` (silvus_adapter.cpp lines 24-28):
unconditionally sets status to Ready and returns Ok. -/
def SilvusAdapter.connect (a : SilvusAdapter) : CommandResult × SilvusAdapter :=
  (⟨.Ok, "", none⟩, { a with state := { a.state with status := .Ready } })

/-- `SilvusAdapter::set_power(watts)` (silvus_adapter.cpp lines 30-36):
stores the watts value, writes status Busy then Ready, returns Ok.
No comparison against `capabilities_.power_range_watts` is made. -/
def SilvusAdapter.set_power (a : SilvusAdapter) (watts : ℚ) :
    CommandResult × SilvusAdapter :=
  (⟨.Ok, "", none⟩,
   { a with state :=
      { status := .Ready
        channel_index := a.state.channel_index
        power_watts := some watts } })

/-- The successive values the `state_.status` field takes during
`SilvusAdapter::set_power` (lines 33-34 write Busy, then Ready),
starting from the value it held at entry. -/
def SilvusAdapter.set_power_status_writes (a : SilvusAdapter) : List RadioStatus :=
  [a.state.status, .Busy, .Ready]

/-- `SilvusAdapter::set_channel(channel_index, frequency_mhz)`
(silvus_adapter.cpp lines 38-45): stores the channel index, writes
status Busy then Ready, discards `frequency_mhz` (`(void)frequency_mhz`)
and returns Ok.  No membership test against
`capabilities_.supported_frequencies_mhz` is made. -/
def SilvusAdapter.set_channel (a : SilvusAdapter) (channel_index : Int)
    (frequency_mhz : ℚ) : CommandResult × SilvusAdapter :=
  (⟨.Ok, "", none⟩,
   { a with state :=
      { status := .Ready
        channel_index := some channel_index
        power_watts := a.state.power_watts } })

/-- `SilvusAdapter::refresh_state()` (silvus_adapter.cpp lines 47-53):
moves Offline to Ready, leaves any other status alone, returns Ok. -/
def SilvusAdapter.refresh_state (a : SilvusAdapter) :
    CommandResult × SilvusAdapter :=
  (⟨.Ok, "", none⟩,
   if a.state.status = .Offline then
     { a with state := { a.state with status := .Ready } }
   else a)

/-- `rcc::config::RadioEntry` (config/types.hpp lines 34-39), the
fields the registry reads (the optional description is never read). -/
structure RadioEntry where
  id : String
  adapter : String
  endpoint : String
deriving DecidableEq, Repr

/-- `rcc::radio::RadioDescriptor` (radio_manager.hpp lines 15-20).
`adapter` is a `std::shared_ptr<IRadioAdapter>`; the only concrete
adapter the registry instantiates is `SilvusAdapter`. -/
structure RadioDescriptor where
  id : String
  adapter_type : String
  adapter : SilvusAdapter
  state : RadioState
deriving DecidableEq, Repr

/-- `rcc::radio::RadioManager` (radio_manager.hpp lines 22-42): the
`std::unordered_map<std::string, RadioDescriptor>` is modelled as an
association list (iteration order is irrelevant to every claim), plus
the optional active-radio id.  The mutex and the `io_context` reference
have no functional content. -/
structure RadioManager where
  radios : List (String × RadioDescriptor)
  active_radio : Option String
deriving DecidableEq, Repr

/-- `radios_.find(id)` on the descriptor map: the descriptor bound to
`id`, if any. -/
def findRadio (rs : List (String × RadioDescriptor)) (id : String) :
    Option RadioDescriptor :=
  (rs.find? (fun p => p.1 == id)).map (fun p => p.2)

/-- The descriptor `RadioManager::load_from_config` builds for one
config entry (radio_manager.cpp lines 76-88): a fresh `SilvusAdapter`
and a cached copy of its initial state. -/
def makeDescriptor (e : RadioEntry) : RadioDescriptor :=
  let a := SilvusAdapter.make e.id e.endpoint
  { id := e.id, adapter_type := e.adapter, adapter := a, state := a.state }

/-- The descriptor map `RadioManager::load_from_config` builds
(radio_manager.cpp lines 74-90): entries whose adapter type is not
"silvus" are skipped; `emplace` inserts only when the id is not
already present. -/
def buildRadios (cfg : List RadioEntry) : List (String × RadioDescriptor) :=
  cfg.foldl
    (fun acc e =>
      if e.adapter == "silvus" then
        match acc.find? (fun p => p.1 == e.id) with
        | some _ => acc
        | none => acc ++ [(e.id, makeDescriptor e)]
      else acc)
    []

/-- `RadioManager::load_from_config(config)` (radio_manager.cpp lines
72-91): clears and rebuilds the descriptor map; the active-radio
pointer is not touched. -/
def RadioManager.load_from_config (m : RadioManager) (cfg : List RadioEntry) :
    RadioManager :=
  { radios := buildRadios cfg, active_radio := m.active_radio }

/-- `RadioManager::RadioManager(io, config)` (radio_manager.cpp lines
9-12): members start empty/unset, then `load_from_config` runs. -/
def RadioManager.make (cfg : List RadioEntry) : RadioManager :=
  RadioManager.load_from_config { radios := [], active_radio := none } cfg

/-- One iteration of `RadioManager::start` (radio_manager.cpp lines
16-21): `connect` mutates the shared adapter; on Ok the cached
descriptor state is refreshed from `adapter->state()`. -/
def startDescriptor (d : RadioDescriptor) : RadioDescriptor :=
  let r := d.adapter.connect
  if r.1.code = .Ok then
    { d with adapter := r.2, state := r.2.state }
  else
    { d with adapter := r.2 }

/-- `RadioManager::start()` (radio_manager.cpp lines 14-22). -/
def RadioManager.start (m : RadioManager) : RadioManager :=
  { m with radios := m.radios.map (fun p => (p.1, startDescriptor p.2)) }

/-- `RadioManager::stop()` (radio_manager.cpp lines 24-28): clears the
descriptor map and resets the active-radio pointer. -/
def RadioManager.stop (_m : RadioManager) : RadioManager :=
  { radios := [], active_radio := none }

/-- `RadioManager::set_active_radio(id)` (radio_manager.cpp lines
45-52): false and no change when `id` is absent from the map,
otherwise records `id` as active and returns true. -/
def RadioManager.set_active_radio (m : RadioManager) (id : String) :
    Bool × RadioManager :=
  if (findRadio m.radios id).isSome then
    (true, { m with active_radio := some id })
  else
    (false, m)

/-- `RadioManager::get_adapter(id)` (radio_manager.cpp lines 54-61):
the shared adapter handle, or null when `id` is unknown. -/
def RadioManager.get_adapter (m : RadioManager) (id : String) :
    Option SilvusAdapter :=
  (findRadio m.radios id).map (fun d => d.adapter)

/-- `RadioManager::get_state(id)` (radio_manager.cpp lines 63-70):
a value-initialized `RadioState` when `id` is unknown, otherwise the
live adapter snapshot `it->second.adapter->state()`. -/
def RadioManager.get_state (m : RadioManager) (id : String) : RadioState :=
  match findRadio m.radios id with
  | none => { status := .Offline, channel_index := none, power_watts := none }
  | some d => d.adapter.state

/-- The descriptor list after the adapter object bound to `id` has been
mutated to `a` through an aliasing `std::shared_ptr` handle. -/
def updateAdapterList (rs : List (String × RadioDescriptor)) (id : String)
    (a : SilvusAdapter) : List (String × RadioDescriptor) :=
  rs.map (fun p => (p.1, if p.1 == id then { p.2 with adapter := a } else p.2))

/-- Effect, on the registry, of invoking a mutating method on the
adapter handle returned by `get_adapter(id)`: the handle is a
`std::shared_ptr` aliasing the descriptor's own adapter, so the
descriptor bound to `id` now sees the mutated adapter object. -/
def RadioManager.update_adapter (m : RadioManager) (id : String)
    (a : SilvusAdapter) : RadioManager :=
  { m with radios := updateAdapterList m.radios id a }

/-- `rcc::command::CommandResult::Code` (orchestrator.hpp lines 27-34):
the orchestrator's own result enum, which also has Unauthorized. -/
inductive OrchCode where
  | Ok
  | InvalidRange
  | Busy
  | Unavailable
  | InternalError
  | Unauthorized
deriving DecidableEq, Repr

/-- `rcc::command::CommandResult` (orchestrator.hpp lines 26-38). -/
structure OrchCommandResult where
  code : OrchCode
  message : String
deriving DecidableEq, Repr

/-- `rcc::audit::AuditRecord` (audit_logger.hpp): actor, action, target
radio, structured parameters (kept as a string), result code, message. -/
structure AuditRecord where
  actor : String
  action : String
  radio_id : String
  parameters : String
  result : CommandResultCode
  message : String
deriving DecidableEq, Repr

/-- `Orchestrator::selectRadio(radioId)` (orchestrator.cpp lines
23-26): prints and returns `{Ok, "stub"}`.  It never calls the
registry, never sets the active radio, and never calls
`auditLogger_.record`; the returned triple is the result, the registry
after the call, and the audit records recorded during the call. -/
def Orchestrator.selectRadio (m : RadioManager) (radioId : String) :
    OrchCommandResult × RadioManager × List AuditRecord :=
  (⟨.Ok, "stub"⟩, m, [])

/-- `Orchestrator::setPower(radioId, watts)` (orchestrator.cpp lines
28-32): prints and returns `{Ok, "stub"}`; no adapter call, no state
change, no audit record. -/
def Orchestrator.setPower (m : RadioManager) (radioId : String) (watts : ℚ) :
    OrchCommandResult × RadioManager × List AuditRecord :=
  (⟨.Ok, "stub"⟩, m, [])

/-- `Orchestrator::setChannel(radioId, channelIndex)` (orchestrator.cpp
lines 34-38): prints and returns `{Ok, "stub"}`; no adapter call, no
state change, no audit record. -/
def Orchestrator.setChannel (m : RadioManager) (radioId : String)
    (channelIndex : Int) : OrchCommandResult × RadioManager × List AuditRecord :=
  (⟨.Ok, "stub"⟩, m, [])

/-- The events of the spec's §4.3 state-machine table. -/
inductive SpecEvent where
  | connectSuccess
  | connectFailure
  | refreshSuccess
  | refreshExhausted
  | commandInvoked
  | commandCompletes
  | linkLoss
  | managerStop
deriving DecidableEq, Repr

/-- Modelled from the spec: the transition table of §4.3, row by row
(Offline → Ready on connect/refresh success, Offline unchanged on
connect failure, Ready → Busy on command invocation, Busy → Ready on
command completion, Ready/Busy → Recovering on link loss,
Recovering → Ready on refresh success, Recovering → Offline when
refreshing is exhausted, any state → Offline on manager stop).  This
definition follows the spec's words, for comparison with the code. -/
def specStatusTransition : RadioStatus → SpecEvent → RadioStatus → Bool
  | .Offline, .connectSuccess, .Ready => true
  | .Offline, .refreshSuccess, .Ready => true
  | .Offline, .connectFailure, .Offline => true
  | .Ready, .commandInvoked, .Busy => true
  | .Busy, .commandCompletes, .Ready => true
  | .Ready, .linkLoss, .Recovering => true
  | .Busy, .linkLoss, .Recovering => true
  | .Recovering, .refreshSuccess, .Ready => true
  | .Recovering, .refreshExhausted, .Offline => true
  | _, .managerStop, .Offline => true
  | _, _, _ => false

/-- Registry states reachable from construction through any sequence of
`set_active_radio`, `stop`, `start` and `load_from_config`. -/
inductive Reached : RadioManager → Prop where
  | construct (cfg : List RadioEntry) : Reached (RadioManager.make cfg)
  | set_active (m : RadioManager) (id : String) :
      Reached m → Reached (m.set_active_radio id).2
  | stop (m : RadioManager) : Reached m → Reached m.stop
  | start (m : RadioManager) : Reached m → Reached m.start
  | load (m : RadioManager) (cfg : List RadioEntry) :
      Reached m → Reached (m.load_from_config cfg)

/-- Registry states reachable in the running program:
`load_from_config` is private and runs only inside the constructor, so
after construction only `set_active_radio`, `stop` and `start` occur. -/
inductive ReachedRun : RadioManager → Prop where
  | construct (cfg : List RadioEntry) : ReachedRun (RadioManager.make cfg)
  | set_active (m : RadioManager) (id : String) :
      ReachedRun m → ReachedRun (m.set_active_radio id).2
  | stop (m : RadioManager) : ReachedRun m → ReachedRun m.stop
  | start (m : RadioManager) : ReachedRun m → ReachedRun m.start

theorem findRadio_map (f : RadioDescriptor → RadioDescriptor)
    (rs : List (String × RadioDescriptor)) (id : String) :
    findRadio (rs.map (fun p => (p.1, f p.2))) id
      = (findRadio rs id).map f := by
  induction rs with
  | nil => rfl
  | cons p rest ih =>
    by_cases h : p.1 == id
    · simp [findRadio, List.find?_cons, h]
    · simpa [findRadio, List.find?_cons, h] using ih

theorem findRadio_updateAdapterList (rs : List (String × RadioDescriptor))
    (id : String) (a : SilvusAdapter) :
    findRadio (updateAdapterList rs id a) id
      = (findRadio rs id).map (fun d => { d with adapter := a }) := by
  induction rs with
  | nil => rfl
  | cons p rest ih =>
    by_cases h : p.1 == id
    · have h' : p.1 = id := by simpa using h
      simp [findRadio, updateAdapterList, List.find?_cons, h]
      intro hc
      exact absurd h' hc
    · simpa [findRadio, updateAdapterList, List.find?_cons, h] using ih

theorem findRadio_update_adapter (m : RadioManager) (id : String)
    (a : SilvusAdapter) :
    findRadio (m.update_adapter id a).radios id
      = (findRadio m.radios id).map (fun d => { d with adapter := a }) :=
  findRadio_updateAdapterList m.radios id a

/-- A sample configuration entry used to instantiate concrete registries. -/
def r1Entry : RadioEntry :=
  { id := "r1", adapter := "silvus", endpoint := "e1" }

/-- C1: refuted on the code.  7 watts lies outside the adapter's power
range (0.1, 5.0), yet `SilvusAdapter::set_power(7.0)` returns Ok, not
InvalidRange, and changes the cached state: `power_watts` becomes 7 and
the status moves from Offline to Ready. -/
theorem c1_set_power_no_range_check :
    (SilvusAdapter.make "r1" "e1").capabilities.power_range_watts = (1/10, 5) ∧
    ¬ ((1 : ℚ)/10 ≤ 7 ∧ (7 : ℚ) ≤ 5) ∧
    ((SilvusAdapter.make "r1" "e1").set_power 7).1.code = CommandResultCode.Ok ∧
    ((SilvusAdapter.make "r1" "e1").set_power 7).2.state.power_watts = some 7 ∧
    ((SilvusAdapter.make "r1" "e1").set_power 7).2.state.status = RadioStatus.Ready ∧
    (SilvusAdapter.make "r1" "e1").state.power_watts = none ∧
    (SilvusAdapter.make "r1" "e1").state.status = RadioStatus.Offline := by
  refine ⟨rfl, by norm_num, rfl, rfl, rfl, rfl, rfl⟩

/-- C2: refuted on the code.  Each orchestrator dispatch
(`selectRadio`, `setPower`, `setChannel`) records zero audit records,
not exactly one: the stub never calls `auditLogger_.record`. -/
theorem c2_dispatch_records_no_audit :
    (Orchestrator.selectRadio (RadioManager.make [r1Entry]) "r1").2.2.length = 0 ∧
    (Orchestrator.setPower (RadioManager.make [r1Entry]) "r1" 2).2.2.length = 0 ∧
    (Orchestrator.setChannel (RadioManager.make [r1Entry]) "r1" 3).2.2.length = 0 :=
  ⟨rfl, rfl, rfl⟩

/-- C3: refuted on the code.  "ghost" is not in the (empty) registry,
yet `Orchestrator::selectRadio` returns Ok, not Unavailable, and the
active radio is not set: the stub never consults the Registry. -/
theorem c3_selectRadio_unknown_returns_ok :
    findRadio (RadioManager.make []).radios "ghost" = none ∧
    (Orchestrator.selectRadio (RadioManager.make []) "ghost").1.code = OrchCode.Ok ∧
    (Orchestrator.selectRadio (RadioManager.make []) "ghost").1.code ≠ OrchCode.Unavailable ∧
    (Orchestrator.selectRadio (RadioManager.make []) "ghost").2.1.active_radio = none :=
  ⟨rfl, rfl, by decide, rfl⟩

/-- C4: refuted on the code.  A freshly constructed adapter is Offline;
invoking `set_power` there succeeds and leaves the status Ready, writing
Offline → Busy → Ready, although the §4.3 table permits no transition
out of Offline on a command invocation. -/
theorem c4_set_power_while_offline_moves_to_ready :
    (SilvusAdapter.make "r1" "e1").state.status = RadioStatus.Offline ∧
    ((SilvusAdapter.make "r1" "e1").set_power 2).1.code = CommandResultCode.Ok ∧
    ((SilvusAdapter.make "r1" "e1").set_power 2).2.state.status = RadioStatus.Ready ∧
    (SilvusAdapter.make "r1" "e1").set_power_status_writes
      = [RadioStatus.Offline, RadioStatus.Busy, RadioStatus.Ready] ∧
    specStatusTransition RadioStatus.Offline SpecEvent.commandInvoked RadioStatus.Busy = false ∧
    specStatusTransition RadioStatus.Offline SpecEvent.commandInvoked RadioStatus.Ready = false :=
  ⟨rfl, rfl, rfl, rfl, rfl, rfl⟩

/-- C5: refuted on the code.  5000 MHz is not among the supported
frequencies {2412, 2437, 2462}, yet `SilvusAdapter::set_channel(9, 5000)`
returns Ok, not InvalidRange, and changes the state: the channel index
becomes 9 and the status moves from Offline to Ready. -/
theorem c5_set_channel_no_frequency_check :
    ((SilvusAdapter.make "r1" "e1").capabilities.supported_frequencies_mhz.contains 5000) = false ∧
    ((SilvusAdapter.make "r1" "e1").set_channel 9 5000).1.code = CommandResultCode.Ok ∧
    ((SilvusAdapter.make "r1" "e1").set_channel 9 5000).2.state.channel_index = some 9 ∧
    ((SilvusAdapter.make "r1" "e1").set_channel 9 5000).2.state.status = RadioStatus.Ready ∧
    (SilvusAdapter.make "r1" "e1").state.channel_index = none ∧
    (SilvusAdapter.make "r1" "e1").state.status = RadioStatus.Offline := by
  refine ⟨by decide, rfl, rfl, rfl, rfl, rfl⟩

/-- C6 (counterexample): the claim as stated is false.  Construct a
registry with radio "r1", activate "r1", then call `load_from_config`
with an empty configuration: the resulting state is reachable through
the claim's operations, its active-radio pointer still holds "r1",
but "r1" is no longer in the descriptor map (`load_from_config` clears
the map without resetting the active-radio pointer). -/
theorem c6_load_after_set_active_orphans_pointer :
    Reached (((RadioManager.make [r1Entry]).set_active_radio "r1").2.load_from_config []) ∧
    (((RadioManager.make [r1Entry]).set_active_radio "r1").2.load_from_config []).active_radio
      = some "r1" ∧
    findRadio ((((RadioManager.make [r1Entry]).set_active_radio "r1").2.load_from_config []).radios)
      "r1" = none :=
  ⟨Reached.load _ _ (Reached.set_active _ _ (Reached.construct _)), rfl, rfl⟩

/-- C6 (amended): in every registry state reachable from construction
through `set_active_radio`, `stop` and `start` (`load_from_config` is
private and runs only inside the constructor, where the active-radio
pointer is still unset), if the active-radio pointer is set then it
refers to a RadioId present in the descriptor map. -/
theorem c6_active_radio_references_existing (m : RadioManager)
    (hr : ReachedRun m) :
    ∀ id : String, m.active_radio = some id →
      (findRadio m.radios id).isSome = true := by
  induction hr with
  | construct cfg =>
    intro id h
    simp [RadioManager.make, RadioManager.load_from_config] at h
  | set_active m' id' hm ih =>
    intro id h
    unfold RadioManager.set_active_radio at h ⊢
    by_cases hs : (findRadio m'.radios id').isSome = true
    · rw [if_pos hs] at h ⊢
      have hid : id' = id := by simpa using h
      exact hid ▸ hs
    · rw [if_neg hs] at h ⊢
      exact ih id h
  | stop m' hm ih =>
    intro id h
    simp [RadioManager.stop] at h
  | start m' hm ih =>
    intro id h
    have hx := ih id h
    show (findRadio (m'.radios.map (fun p => (p.1, startDescriptor p.2))) id).isSome = true
    rw [findRadio_map]
    simpa using hx

/-- Witness for the amended C6 theorem at a concrete reachable state. -/
theorem c6_active_radio_references_existing_w :
    ReachedRun ((RadioManager.make [r1Entry]).set_active_radio "r1").2 ∧
    ((RadioManager.make [r1Entry]).set_active_radio "r1").2.active_radio = some "r1" ∧
    (findRadio (((RadioManager.make [r1Entry]).set_active_radio "r1").2.radios) "r1").isSome
      = true :=
  ⟨ReachedRun.set_active _ _ (ReachedRun.construct _), rfl,
   c6_active_radio_references_existing _
     (ReachedRun.set_active _ _ (ReachedRun.construct _)) "r1" rfl⟩

/-- C7: confirmed.  For every radio id bound to a descriptor in the
registry, invoking `set_channel(3, 2437.0)` on its (shared) adapter and
then reading the radio's state through `RadioManager::get_state` yields
`channel_index == 3`. -/
theorem c7_set_channel_roundtrip (m : RadioManager) (id : String)
    (d : RadioDescriptor) (h : findRadio m.radios id = some d) :
    ((m.update_adapter id (d.adapter.set_channel 3 2437).2).get_state id).channel_index
      = some 3 := by
  unfold RadioManager.get_state
  rw [findRadio_update_adapter, h]
  rfl

/-- Witness for the C7 round-trip at a concrete registry. -/
theorem c7_set_channel_roundtrip_w :
    findRadio (RadioManager.make [r1Entry]).radios "r1" = some (makeDescriptor r1Entry) ∧
    (((RadioManager.make [r1Entry]).update_adapter "r1"
        ((makeDescriptor r1Entry).adapter.set_channel 3 2437).2).get_state "r1").channel_index
      = some 3 :=
  ⟨rfl, c7_set_channel_roundtrip _ _ _ rfl⟩

/-- C8: confirmed.  On an adapter whose status is already Ready,
`connect()` returns Ok and leaves the status Ready and the cached
`power_watts` and `channel_index` unchanged. -/
theorem c8_connect_idempotent (a : SilvusAdapter)
    (h : a.state.status = RadioStatus.Ready) :
    a.connect.1.code = CommandResultCode.Ok ∧
    a.connect.2.state.status = RadioStatus.Ready ∧
    a.connect.2.state.power_watts = a.state.power_watts ∧
    a.connect.2.state.channel_index = a.state.channel_index :=
  ⟨rfl, rfl, rfl, rfl⟩

/-- Witness for C8 on a concrete Ready adapter (a fresh adapter after
one `connect`). -/
theorem c8_connect_idempotent_w :
    (SilvusAdapter.make "r1" "e1").connect.2.state.status = RadioStatus.Ready ∧
    ((SilvusAdapter.make "r1" "e1").connect.2.connect.1.code = CommandResultCode.Ok ∧
     (SilvusAdapter.make "r1" "e1").connect.2.connect.2.state.status = RadioStatus.Ready ∧
     (SilvusAdapter.make "r1" "e1").connect.2.connect.2.state.power_watts
       = (SilvusAdapter.make "r1" "e1").connect.2.state.power_watts ∧
     (SilvusAdapter.make "r1" "e1").connect.2.connect.2.state.channel_index
       = (SilvusAdapter.make "r1" "e1").connect.2.state.channel_index) :=
  ⟨rfl, c8_connect_idempotent _ rfl⟩

/-- C9: confirmed.  `RadioManager::get_state` on an id absent from the
descriptor map returns the value-initialized RadioState (Offline, no
channel, no power) rather than signalling an error; a freshly
configured radio that has never reported returns exactly the same
value, so the two are indistinguishable through `get_state`. -/
theorem c9_get_state_unknown_default (m : RadioManager) (id : String)
    (h : findRadio m.radios id = none) :
    m.get_state id
      = { status := RadioStatus.Offline, channel_index := none, power_watts := none } ∧
    (RadioManager.make [r1Entry]).get_state "r1"
      = { status := RadioStatus.Offline, channel_index := none, power_watts := none } := by
  constructor
  · unfold RadioManager.get_state
    rw [h]
  · rfl

/-- Witness for C9 at a concrete empty registry. -/
theorem c9_get_state_unknown_default_w :
    findRadio (RadioManager.make []).radios "ghost" = none ∧
    ((RadioManager.make []).get_state "ghost"
       = { status := RadioStatus.Offline, channel_index := none, power_watts := none } ∧
     (RadioManager.make [r1Entry]).get_state "r1"
       = { status := RadioStatus.Offline, channel_index := none, power_watts := none }) :=
  ⟨rfl, c9_get_state_unknown_default _ _ rfl⟩

/-- C10: confirmed.  `RadioManager::set_active_radio` on an id absent
from the descriptor map returns false and leaves the whole registry —
active-radio pointer and every descriptor — exactly as it was. -/
theorem c10_set_active_radio_atomic_on_failure (m : RadioManager)
    (id : String) (h : findRadio m.radios id = none) :
    m.set_active_radio id = (false, m) := by
  unfold RadioManager.set_active_radio
  rw [h]
  rfl

/-- Witness for C10 at a concrete registry and unknown id. -/
theorem c10_set_active_radio_atomic_on_failure_w :
    findRadio (RadioManager.make [r1Entry]).radios "ghost" = none ∧
    (RadioManager.make [r1Entry]).set_active_radio "ghost"
      = (false, RadioManager.make [r1Entry]) :=
  ⟨rfl, c10_set_active_radio_atomic_on_failure _ _ rfl⟩

end rcc
